import Mathlib

/-!
Shallow embedding of the Flow emulator control-plane HTTP handlers
(server/emulator.go) and proofs about their behaviour.

The handlers in the source call an external engine facade
(backend.Backend / the emulator behind it) which is not part of this
repository's sources; it is modelled abstractly as a structure of
operations over an opaque engine-state type, with fault injection.
Each handler is translated line by line from the Go source; the model
additionally records the list of engine calls the handler performed,
so that frame properties (a given engine operation was never invoked)
can be stated directly.
-/

namespace FlowEmulator

/-- The Go conversion `int(h)` applied to a `uint64` value `h` on a
64-bit platform: values below `2 ^ 63` are unchanged, larger values
wrap around to negative numbers. -/
def intOfUInt64 (h : Nat) : Int :=
  if h < 2 ^ 63 then (h : Int) else (h : Int) - 2 ^ 64

/-- Go `strconv.ParseUint(s, 10, 64)`: succeeds exactly on a non-empty
all-decimal-digit string whose value fits in 64 bits. -/
def parseUint64 (s : String) : Option Nat :=
  if s.data = [] then none
  else if s.data.all (fun c => 48 ≤ c.toNat && c.toNat ≤ 57) then
    let n := s.data.foldl (fun a c => a * 10 + (c.toNat - 48)) 0
    if n < 2 ^ 64 then some n else none
  else none

/-- A block as the handlers see it: `Header.Height` (a `uint64`,
modelled as `Nat`) and the string form of `Header.ID()`. -/
structure Block where
  height : Nat
  id : String
deriving DecidableEq

/-- The `BlockResponse` JSON payload of server/emulator.go: `Height`
is a Go `int` (signed), `BlockId` the block hash string, `Context`
the snapshot name (empty when absent, mirroring omitempty). -/
structure BlockResponse where
  height : Int
  blockId : String
  context : String
deriving DecidableEq

/-- An error returned by the storage lookup, carrying the one
distinguishable property the handler tests:
`fvmerrors.IsAccountNotFoundError`. -/
structure FVMError where
  isAccountNotFoundError : Bool
deriving DecidableEq

/-- The engine operations a handler can invoke, recorded as a trace. -/
inductive EngineCall where
  | snapshots
  | createSnapshot (name : String)
  | loadSnapshot (name : String)
  | getLatestBlock
  | getLatestBlockHeader
  | commitBlock
  | rollbackToBlockHeight (height : Nat)
  | getAccountStorage (address : String)
deriving DecidableEq

/-- Modelled from the spec: the Engine Facade contract of the design
document together with the serialization substrate, neither of which
is part of this repository's sources (only their caller,
server/emulator.go, is). `σ` is the opaque engine state. Read-only
operations return a result without changing the state; mutating
operations (`CreateSnapshot`, `LoadSnapshot`, `RollbackToBlockHeight`,
`CommitBlock`) return the successor state. `CommitBlock` returns no
error, matching the facade contract `commitBlock() -> nothing` and the
Go call site, which discards any result. `marshalBlock` and
`encodeStorage` model possible JSON serialization failure. -/
structure Env (σ : Type) where
  Snapshots : σ → Except Unit (List String)
  CreateSnapshot : String → σ → Except Unit Unit × σ
  LoadSnapshot : String → σ → Except Unit Unit × σ
  RollbackToBlockHeight : Nat → σ → Except Unit Unit × σ
  CommitBlock : σ → σ
  GetLatestBlock : σ → Except Unit Block
  GetLatestBlockHeader : σ → Except Unit Block
  HexToAddress : String → String
  GetAccountStorage : String → σ → Except FVMError String
  marshalBlock : BlockResponse → Except Unit Unit
  encodeStorage : String → Except Unit Unit

/-- Result of the shared block-reference response builder: HTTP
status, the structured body written (when any), and the engine calls
performed. -/
structure WResult where
  status : Nat
  body : Option BlockResponse
  calls : List EngineCall
deriving DecidableEq

/-- Result of a handler over engine state `σ`: HTTP status, the
structured block-reference body written (when any), the engine state
after the request, and the engine calls performed. -/
structure HResult (σ : Type) where
  status : Nat
  body : Option BlockResponse
  state : σ
  calls : List EngineCall

/-- Result of the storage handler: HTTP status, the storage view
written (when any), the engine state after the request, and the
engine calls performed. -/
structure SResult (σ : Type) where
  status : Nat
  body : Option String
  state : σ
  calls : List EngineCall

/-- `latestBlockResponse` of server/emulator.go: re-read the current
latest block, build a `BlockResponse` from its height (cast to `int`)
and identifier with the snapshot name as context, marshal it; any
failure yields 500, success writes the body with status 200. -/
def latestBlockResponse {σ : Type} (env : Env σ) (name : String) (s : σ) : WResult :=
  match env.GetLatestBlock s with
  | Except.error _ => ⟨500, none, [EngineCall.getLatestBlock]⟩
  | Except.ok block =>
    let blockResponse : BlockResponse := ⟨intOfUInt64 block.height, block.id, name⟩
    match env.marshalBlock blockResponse with
    | Except.error _ => ⟨500, none, [EngineCall.getLatestBlock]⟩
    | Except.ok _ => ⟨200, some blockResponse, [EngineCall.getLatestBlock]⟩

/-- `CommitBlock` handler: commit a block (result discarded by the
source), then read the latest header; a failing read or a failing
encode yields 500, otherwise the response carries the new head's
height (cast to `int`) and identifier. -/
def CommitBlock {σ : Type} (env : Env σ) (s : σ) : HResult σ :=
  let s1 := env.CommitBlock s
  match env.GetLatestBlockHeader s1 with
  | Except.error _ =>
    ⟨500, none, s1, [EngineCall.commitBlock, EngineCall.getLatestBlockHeader]⟩
  | Except.ok header =>
    let blockResponse : BlockResponse := ⟨intOfUInt64 header.height, header.id, ""⟩
    match env.marshalBlock blockResponse with
    | Except.error _ =>
      ⟨500, none, s1, [EngineCall.commitBlock, EngineCall.getLatestBlockHeader]⟩
    | Except.ok _ =>
      ⟨200, some blockResponse, s1, [EngineCall.commitBlock, EngineCall.getLatestBlockHeader]⟩

/-- `Rollback` handler: an empty or unparseable height form value
yields 500 before any engine call; otherwise the engine rollback is
invoked, an error yields 500 and success an empty 200 response. -/
def Rollback {σ : Type} (env : Env σ) (heightValue : String) (s : σ) : HResult σ :=
  if heightValue = "" then ⟨500, none, s, []⟩
  else
    match parseUint64 heightValue with
    | none => ⟨500, none, s, []⟩
    | some height =>
      match env.RollbackToBlockHeight height s with
      | (Except.error _, s1) => ⟨500, none, s1, [EngineCall.rollbackToBlockHeight height]⟩
      | (Except.ok _, s1) => ⟨200, none, s1, [EngineCall.rollbackToBlockHeight height]⟩

/-- `SnapshotJump` handler: list snapshots (500 on failure); a name
absent from the list yields 404 without loading; otherwise load the
snapshot (500 on failure) and answer via `latestBlockResponse` on the
post-load state. -/
def SnapshotJump {σ : Type} (env : Env σ) (name : String) (s : σ) : HResult σ :=
  match env.Snapshots s with
  | Except.error _ => ⟨500, none, s, [EngineCall.snapshots]⟩
  | Except.ok snapshots =>
    if !snapshots.contains name then ⟨404, none, s, [EngineCall.snapshots]⟩
    else
      match env.LoadSnapshot name s with
      | (Except.error _, s1) =>
        ⟨500, none, s1, [EngineCall.snapshots, EngineCall.loadSnapshot name]⟩
      | (Except.ok _, s1) =>
        let r := latestBlockResponse env name s1
        ⟨r.status, r.body, s1, [EngineCall.snapshots, EngineCall.loadSnapshot name] ++ r.calls⟩

/-- `SnapshotCreate` handler: an empty name yields 500 before any
engine call; list snapshots (500 on failure); a name already present
yields 409 without creating; otherwise create the snapshot (500 on
failure) and answer via `latestBlockResponse` on the post-create
state. -/
def SnapshotCreate {σ : Type} (env : Env σ) (name : String) (s : σ) : HResult σ :=
  if name = "" then ⟨500, none, s, []⟩
  else
    match env.Snapshots s with
    | Except.error _ => ⟨500, none, s, [EngineCall.snapshots]⟩
    | Except.ok snapshots =>
      if snapshots.contains name then ⟨409, none, s, [EngineCall.snapshots]⟩
      else
        match env.CreateSnapshot name s with
        | (Except.error _, s1) =>
          ⟨500, none, s1, [EngineCall.snapshots, EngineCall.createSnapshot name]⟩
        | (Except.ok _, s1) =>
          let r := latestBlockResponse env name s1
          ⟨r.status, r.body, s1, [EngineCall.snapshots, EngineCall.createSnapshot name] ++ r.calls⟩

/-- `Storage` handler: decode the address, look up account storage;
an account-not-found error yields 404, any other lookup error 500; a
failing encode yields 500, otherwise the storage view is written with
status 200. -/
def Storage {σ : Type} (env : Env σ) (address : String) (s : σ) : SResult σ :=
  let addr := env.HexToAddress address
  match env.GetAccountStorage addr s with
  | Except.error e =>
    if e.isAccountNotFoundError then ⟨404, none, s, [EngineCall.getAccountStorage addr]⟩
    else ⟨500, none, s, [EngineCall.getAccountStorage addr]⟩
  | Except.ok accountStorage =>
    match env.encodeStorage accountStorage with
    | Except.error _ => ⟨500, none, s, [EngineCall.getAccountStorage addr]⟩
    | Except.ok _ => ⟨200, some accountStorage, s, [EngineCall.getAccountStorage addr]⟩

/-- A concrete instance of the facade used to evaluate the handlers:
the engine state is the snapshot-name list, creating a snapshot
appends its name, loading replaces the state by the loaded name,
committing prepends a marker, and the head block's height is the
length of the state. -/
def testEnv : Env (List String) :=
  { Snapshots := fun s => Except.ok s
    CreateSnapshot := fun name s => (Except.ok (), s ++ [name])
    LoadSnapshot := fun name _ => (Except.ok (), [name])
    RollbackToBlockHeight := fun _ s => (Except.ok (), s)
    CommitBlock := fun s => "committed" :: s
    GetLatestBlock := fun s => Except.ok ⟨s.length, "head"⟩
    GetLatestBlockHeader := fun s => Except.ok ⟨s.length, "head"⟩
    HexToAddress := fun a => a
    GetAccountStorage := fun a _ =>
      if a = "f8d6e0586b0a20c7" then Except.ok "storageView"
      else if a = "0000000000000001" then Except.error ⟨true⟩
      else Except.error ⟨false⟩
    marshalBlock := fun _ => Except.ok ()
    encodeStorage := fun _ => Except.ok () }

/-- A concrete instance of the facade in which every fallible
operation fails. -/
def failEnv : Env (List String) :=
  { Snapshots := fun _ => Except.error ()
    CreateSnapshot := fun _ s => (Except.error (), s)
    LoadSnapshot := fun _ s => (Except.error (), s)
    RollbackToBlockHeight := fun _ s => (Except.error (), s)
    CommitBlock := fun s => s
    GetLatestBlock := fun _ => Except.error ()
    GetLatestBlockHeader := fun _ => Except.error ()
    HexToAddress := fun a => a
    GetAccountStorage := fun _ _ => Except.error ⟨false⟩
    marshalBlock := fun _ => Except.error ()
    encodeStorage := fun _ => Except.error () }

/-- A concrete instance of the facade whose head height sits just
above the signed 64-bit range. -/
def bigHeightEnv : Env (List String) :=
  { testEnv with GetLatestBlock := fun _ => Except.ok ⟨2 ^ 63, "big"⟩ }

/-- A concrete instance of the facade in which the snapshot mutations
succeed but the subsequent head re-read fails. -/
def headReadFaultEnv : Env (List String) :=
  { testEnv with GetLatestBlock := fun _ => Except.error () }

theorem rollback_malformed_eq {σ : Type} (env : Env σ) (hv : String) (s : σ)
    (h : hv = "" ∨ parseUint64 hv = none) :
    Rollback env hv s = ⟨500, none, s, []⟩ := by
  unfold Rollback
  rcases h with h | h
  · rw [if_pos h]
  · by_cases he : hv = ""
    · rw [if_pos he]
    · rw [if_neg he, h]

theorem snapshotCreate_empty_name_eq {σ : Type} (env : Env σ) (s : σ) :
    SnapshotCreate env "" s = ⟨500, none, s, []⟩ := by
  unfold SnapshotCreate
  rw [if_pos rfl]

/-- C1: a create-snapshot request whose (non-empty) name is already in
the engine's snapshot list returns 409 with no body, leaves the engine
state unchanged, and performs only the read-only snapshot-list call —
in particular `CreateSnapshot` is never invoked, so head and snapshot
list are unchanged. -/
theorem snapshotCreate_existing_name_conflict {σ : Type} (env : Env σ)
    (name : String) (s : σ) (l : List String)
    (hname : name ≠ "")
    (hlist : env.Snapshots s = Except.ok l)
    (hmem : name ∈ l) :
    SnapshotCreate env name s = ⟨409, none, s, [EngineCall.snapshots]⟩ := by
  unfold SnapshotCreate
  rw [if_neg hname, hlist]
  simp [hmem]

theorem snapshotCreate_existing_name_conflict_witness :
    SnapshotCreate testEnv "alpha" ["alpha"] =
      ⟨409, none, ["alpha"], [EngineCall.snapshots]⟩ :=
  snapshotCreate_existing_name_conflict testEnv "alpha" ["alpha"] ["alpha"]
    (by decide) rfl (by decide)

/-- C2: a load-snapshot (jump) request whose name is not in the
engine's current snapshot list returns 404 with no body, leaves the
engine state unchanged, and performs only the read-only snapshot-list
call — in particular `LoadSnapshot` is never invoked, so the head is
unchanged. -/
theorem snapshotJump_unknown_name_not_found {σ : Type} (env : Env σ)
    (name : String) (s : σ) (l : List String)
    (hlist : env.Snapshots s = Except.ok l)
    (hmem : name ∉ l) :
    SnapshotJump env name s = ⟨404, none, s, [EngineCall.snapshots]⟩ := by
  unfold SnapshotJump
  rw [hlist]
  simp [hmem]

theorem snapshotJump_unknown_name_not_found_witness :
    SnapshotJump testEnv "ghost" ["alpha"] =
      ⟨404, none, ["alpha"], [EngineCall.snapshots]⟩ :=
  snapshotJump_unknown_name_not_found testEnv "ghost" ["alpha"] ["alpha"]
    rfl (by decide)

/-- C5: a rollback request whose height form value is missing (empty)
or fails to parse as an unsigned 64-bit integer performs no engine
call at all — the call trace is empty, so `RollbackToBlockHeight` is
never invoked and the engine state is returned unchanged. -/
theorem rollback_malformed_no_engine_call {σ : Type} (env : Env σ)
    (hv : String) (s : σ)
    (h : hv = "" ∨ parseUint64 hv = none) :
    Rollback env hv s = ⟨500, none, s, []⟩ :=
  rollback_malformed_eq env hv s h

theorem rollback_malformed_no_engine_call_witness :
    Rollback testEnv "" [] = ⟨500, none, [], []⟩ ∧
    Rollback testEnv "-5" [] = ⟨500, none, [], []⟩ ∧
    Rollback testEnv "99999999999999999999999" [] = ⟨500, none, [], []⟩ :=
  ⟨rollback_malformed_no_engine_call testEnv "" [] (Or.inl rfl),
   rollback_malformed_no_engine_call testEnv "-5" [] (Or.inr (by decide)),
   rollback_malformed_no_engine_call testEnv "99999999999999999999999" []
     (Or.inr (by decide))⟩

/-- C4 counterexample: for the rollback request with missing height
the handler answers 500, which is not the bad-request status 400 and
not in the client-error class 4xx at all. -/
theorem rollback_malformed_not_bad_request :
    (Rollback testEnv "" ([] : List String)).status = 500 ∧
    ¬ (400 ≤ (Rollback testEnv "" ([] : List String)).status ∧
       (Rollback testEnv "" ([] : List String)).status < 500) := by
  decide

/-- C4 amended: a rollback request whose height is missing or does not
parse as an unsigned 64-bit integer is answered with the
internal-server-error status 500 (the source conflates malformed input
with internal failure), not with a 4xx bad-request status. -/
theorem rollback_malformed_internal_error {σ : Type} (env : Env σ)
    (hv : String) (s : σ)
    (h : hv = "" ∨ parseUint64 hv = none) :
    (Rollback env hv s).status = 500 := by
  rw [rollback_malformed_eq env hv s h]

theorem rollback_malformed_internal_error_witness :
    (Rollback testEnv "12abc" ([] : List String)).status = 500 :=
  rollback_malformed_internal_error testEnv "12abc" [] (Or.inr (by decide))

/-- C6 counterexample: for the create-snapshot request with empty name
the handler answers 500, not the bad-request status 400. -/
theorem snapshotCreate_empty_name_not_bad_request :
    (SnapshotCreate testEnv "" ([] : List String)).status = 500 ∧
    (SnapshotCreate testEnv "" ([] : List String)).status ≠ 400 := by
  decide

/-- C6 amended: a create-snapshot request with an empty name form
value is answered with the internal-server-error status 500 (the
source conflates malformed input with internal failure), without any
engine call: the trace is empty and the engine state unchanged. -/
theorem snapshotCreate_empty_name_internal_error {σ : Type} (env : Env σ) (s : σ) :
    SnapshotCreate env "" s = ⟨500, none, s, []⟩ :=
  snapshotCreate_empty_name_eq env s

/-- C3: for a successful create-snapshot and a successful
load-snapshot request, the handler re-reads the latest block on the
post-mutation engine state and the body is exactly the block-reference
built from that post-operation head — its height (as stored, the
signed cast of the engine height), its identifier, and the snapshot
name as context — as witnessed by the call trace ending with the head
read after the mutating call. -/
theorem snapshot_response_reflects_post_operation_head :
    (∀ (σ : Type) (env : Env σ) (name : String) (s s1 : σ) (l : List String) (b : Block),
      name ≠ "" →
      env.Snapshots s = Except.ok l →
      name ∉ l →
      env.CreateSnapshot name s = (Except.ok (), s1) →
      env.GetLatestBlock s1 = Except.ok b →
      env.marshalBlock ⟨intOfUInt64 b.height, b.id, name⟩ = Except.ok () →
      SnapshotCreate env name s =
        ⟨200, some ⟨intOfUInt64 b.height, b.id, name⟩, s1,
         [EngineCall.snapshots, EngineCall.createSnapshot name, EngineCall.getLatestBlock]⟩) ∧
    (∀ (σ : Type) (env : Env σ) (name : String) (s s1 : σ) (l : List String) (b : Block),
      env.Snapshots s = Except.ok l →
      name ∈ l →
      env.LoadSnapshot name s = (Except.ok (), s1) →
      env.GetLatestBlock s1 = Except.ok b →
      env.marshalBlock ⟨intOfUInt64 b.height, b.id, name⟩ = Except.ok () →
      SnapshotJump env name s =
        ⟨200, some ⟨intOfUInt64 b.height, b.id, name⟩, s1,
         [EngineCall.snapshots, EngineCall.loadSnapshot name, EngineCall.getLatestBlock]⟩) := by
  constructor
  · intro σ env name s s1 l b hname hlist hmem hcreate hget hmarshal
    unfold SnapshotCreate
    rw [if_neg hname, hlist]
    simp [hmem, hcreate, latestBlockResponse, hget, hmarshal]
  · intro σ env name s s1 l b hlist hmem hload hget hmarshal
    unfold SnapshotJump
    rw [hlist]
    simp [hmem, hload, latestBlockResponse, hget, hmarshal]

theorem snapshot_response_reflects_post_operation_head_witness :
    SnapshotCreate testEnv "alpha" [] =
      ⟨200, some ⟨intOfUInt64 1, "head", "alpha"⟩, ["alpha"],
       [EngineCall.snapshots, EngineCall.createSnapshot "alpha", EngineCall.getLatestBlock]⟩ ∧
    SnapshotJump testEnv "beta" ["x", "beta"] =
      ⟨200, some ⟨intOfUInt64 1, "head", "beta"⟩, ["beta"],
       [EngineCall.snapshots, EngineCall.loadSnapshot "beta", EngineCall.getLatestBlock]⟩ :=
  ⟨snapshot_response_reflects_post_operation_head.1 (List String) testEnv "alpha" []
     ["alpha"] [] ⟨1, "head"⟩ (by decide) rfl (by decide) rfl rfl rfl,
   snapshot_response_reflects_post_operation_head.2 (List String) testEnv "beta"
     ["x", "beta"] ["beta"] ["x", "beta"] ⟨1, "head"⟩ rfl (by decide) rfl rfl rfl⟩

/-- C7: for the account-storage request, a lookup error with the
account-not-found kind yields 404, a lookup error of any other kind
yields 500, and a successful lookup whose encoding succeeds yields 200
with the storage view as body. -/
theorem storage_error_mapping :
    ∀ (σ : Type) (env : Env σ) (address : String) (s : σ),
      (∀ e : FVMError,
        env.GetAccountStorage (env.HexToAddress address) s = Except.error e →
        (e.isAccountNotFoundError = true →
          Storage env address s =
            ⟨404, none, s, [EngineCall.getAccountStorage (env.HexToAddress address)]⟩) ∧
        (e.isAccountNotFoundError = false →
          Storage env address s =
            ⟨500, none, s, [EngineCall.getAccountStorage (env.HexToAddress address)]⟩)) ∧
      (∀ v : String,
        env.GetAccountStorage (env.HexToAddress address) s = Except.ok v →
        env.encodeStorage v = Except.ok () →
        Storage env address s =
          ⟨200, some v, s, [EngineCall.getAccountStorage (env.HexToAddress address)]⟩) := by
  intro σ env address s
  constructor
  · intro e herr
    constructor
    · intro hflag
      simp [Storage, herr, hflag]
    · intro hflag
      simp [Storage, herr, hflag]
  · intro v hok henc
    simp [Storage, hok, henc]

theorem storage_error_mapping_witness :
    Storage testEnv "0000000000000001" [] =
      ⟨404, none, [], [EngineCall.getAccountStorage "0000000000000001"]⟩ ∧
    Storage testEnv "deadbeef" [] =
      ⟨500, none, [], [EngineCall.getAccountStorage "deadbeef"]⟩ ∧
    Storage testEnv "f8d6e0586b0a20c7" [] =
      ⟨200, some "storageView", [], [EngineCall.getAccountStorage "f8d6e0586b0a20c7"]⟩ :=
  ⟨((storage_error_mapping (List String) testEnv "0000000000000001" []).1 ⟨true⟩
      rfl).1 rfl,
   ((storage_error_mapping (List String) testEnv "deadbeef" []).1 ⟨false⟩
      rfl).2 rfl,
   (storage_error_mapping (List String) testEnv "f8d6e0586b0a20c7" []).2 "storageView"
     rfl rfl⟩

/-- C8: for the commit-block request, an engine error during the flow
(the post-commit head read — the commit call itself returns no error
per the facade contract — or a failing encode) is reported as 500 with
no body; otherwise the response is the block reference of the newly
produced head, read after the commit. -/
theorem commitBlock_error_mapping :
    ∀ (σ : Type) (env : Env σ) (s : σ),
      (env.GetLatestBlockHeader (env.CommitBlock s) = Except.error () →
        (CommitBlock env s).status = 500 ∧ (CommitBlock env s).body = none) ∧
      (∀ b : Block,
        env.GetLatestBlockHeader (env.CommitBlock s) = Except.ok b →
        env.marshalBlock ⟨intOfUInt64 b.height, b.id, ""⟩ = Except.ok () →
        CommitBlock env s =
          ⟨200, some ⟨intOfUInt64 b.height, b.id, ""⟩, env.CommitBlock s,
           [EngineCall.commitBlock, EngineCall.getLatestBlockHeader]⟩) ∧
      (∀ b : Block,
        env.GetLatestBlockHeader (env.CommitBlock s) = Except.ok b →
        env.marshalBlock ⟨intOfUInt64 b.height, b.id, ""⟩ = Except.error () →
        (CommitBlock env s).status = 500 ∧ (CommitBlock env s).body = none) := by
  intro σ env s
  refine ⟨?_, ?_, ?_⟩
  · intro herr
    simp [CommitBlock, herr]
  · intro b hok hmarshal
    simp [CommitBlock, hok, hmarshal]
  · intro b hok hmarshal
    simp [CommitBlock, hok, hmarshal]

theorem commitBlock_error_mapping_witness :
    ((CommitBlock failEnv ([] : List String)).status = 500 ∧
     (CommitBlock failEnv ([] : List String)).body = none) ∧
    CommitBlock testEnv [] =
      ⟨200, some ⟨intOfUInt64 1, "head", ""⟩, ["committed"],
       [EngineCall.commitBlock, EngineCall.getLatestBlockHeader]⟩ :=
  ⟨(commitBlock_error_mapping (List String) failEnv []).1 rfl,
   (commitBlock_error_mapping (List String) testEnv []).2.1 ⟨1, "head"⟩ rfl rfl⟩

/-- C9: the block-reference body stores the head height through the
signed 64-bit cast `intOfUInt64`; for any engine height above
`2 ^ 63 - 1` (but within `uint64` range) the reported height is
negative and differs from the true height, and the reported height
equals the engine height exactly when it fits the signed range. -/
theorem blockResponse_height_signed_cast :
    ∀ (σ : Type) (env : Env σ) (name : String) (s : σ) (b : Block),
      env.GetLatestBlock s = Except.ok b →
      b.height < 2 ^ 64 →
      env.marshalBlock ⟨intOfUInt64 b.height, b.id, name⟩ = Except.ok () →
      (latestBlockResponse env name s).body =
        some ⟨intOfUInt64 b.height, b.id, name⟩ ∧
      (2 ^ 63 - 1 < b.height →
        intOfUInt64 b.height < 0 ∧ intOfUInt64 b.height ≠ (b.height : Int)) ∧
      (b.height < 2 ^ 63 → intOfUInt64 b.height = (b.height : Int)) := by
  intro σ env name s b hget hlt hmarshal
  refine ⟨?_, ?_, ?_⟩
  · simp [latestBlockResponse, hget, hmarshal]
  · intro hbig
    unfold intOfUInt64
    rw [if_neg (by omega)]
    constructor
    · omega
    · omega
  · intro hsmall
    unfold intOfUInt64
    rw [if_pos hsmall]

theorem blockResponse_height_signed_cast_witness :
    (latestBlockResponse bigHeightEnv "snap" ([] : List String)).body =
      some ⟨intOfUInt64 (2 ^ 63), "big", "snap"⟩ ∧
    intOfUInt64 (2 ^ 63) < 0 ∧
    intOfUInt64 (2 ^ 63) ≠ ((2 ^ 63 : Nat) : Int) := by
  have h := blockResponse_height_signed_cast (List String) bigHeightEnv "snap" []
    ⟨2 ^ 63, "big"⟩ rfl (by norm_num) rfl
  exact ⟨h.1, (h.2.1 (by norm_num)).1, (h.2.1 (by norm_num)).2⟩

/-- C10: an internal-error response of create-snapshot or
load-snapshot does not imply the engine is unchanged: in a run where
the mutation succeeds and only the subsequent head re-read fails, the
handler answers 500 although the snapshot was created (state grew, the
create call is in the trace), respectively the head was repositioned
(state changed, the load call is in the trace). -/
theorem internal_error_after_successful_mutation :
    ((SnapshotCreate headReadFaultEnv "alpha" []).status = 500 ∧
     (SnapshotCreate headReadFaultEnv "alpha" []).state = ["alpha"] ∧
     (SnapshotCreate headReadFaultEnv "alpha" []).state ≠ ([] : List String) ∧
     EngineCall.createSnapshot "alpha" ∈ (SnapshotCreate headReadFaultEnv "alpha" []).calls) ∧
    ((SnapshotJump headReadFaultEnv "beta" ["beta", "x"]).status = 500 ∧
     (SnapshotJump headReadFaultEnv "beta" ["beta", "x"]).state = ["beta"] ∧
     (SnapshotJump headReadFaultEnv "beta" ["beta", "x"]).state ≠ ["beta", "x"] ∧
     EngineCall.loadSnapshot "beta" ∈ (SnapshotJump headReadFaultEnv "beta" ["beta", "x"]).calls) := by
  decide

end FlowEmulator
